import Mathlib

/-!
Verification of the `fred_maiyer` OAuth2 token-lifecycle and
local-callback-capture subsystem, as a shallow embedding of the Python
sources (`auth.py`, `cli.py`, `google_tasks.py`, `products.py`,
`models.py`) into Lean 4.

Network I/O is abstracted: each operation that performs an HTTP exchange
is embedded as a pure function taking the provider's response (status
code, raw body, parsed JSON) as an explicit argument, and returning the
result the Python function would return (`Except` for code paths that
raise).  Request construction is embedded separately so that claims
about outgoing requests (auth headers, form bodies) are statable.
-/

set_option maxRecDepth 16384

namespace FredMaiyer

/-! ## Library helpers modelling Python stdlib behaviour (ASCII fragment) -/

/-- Uppercase hexadecimal digit for a value `< 16`, as used by
`urllib.parse.quote`. -/
def hexDigitUpper (n : Nat) : Char :=
  if n < 10 then Char.ofNat (48 + n) else Char.ofNat (55 + n)

/-- Two-digit uppercase hex rendering of a byte, as `urllib.parse.quote`
emits it after a `%`. -/
def hexByteUpper (b : UInt8) : String :=
  String.mk [hexDigitUpper (b.toNat / 16), hexDigitUpper (b.toNat % 16)]

/-- Bytes that `urllib.parse.quote` leaves unescaped with the default
(empty) `safe` set of `quote_plus`: ASCII letters, digits, and `_.-~`. -/
def isUrlSafeByte (b : UInt8) : Bool :=
  (65 ≤ b.toNat && b.toNat ≤ 90) || (97 ≤ b.toNat && b.toNat ≤ 122) ||
  (48 ≤ b.toNat && b.toNat ≤ 57) ||
  b.toNat = 95 || b.toNat = 46 || b.toNat = 45 || b.toNat = 126

/-- Python `urllib.parse.quote_plus` on one UTF-8 byte: a space becomes `+`,
safe bytes pass through, everything else becomes `%XX`. -/
def quotePlusByte (b : UInt8) : String :=
  if b.toNat = 32 then "+"
  else if isUrlSafeByte b then String.mk [Char.ofNat b.toNat]
  else "%" ++ hexByteUpper b

/-- UTF-8 bytes of a string, as Python's `str.encode()` produces (via
the underlying array so that concrete instances reduce in the
kernel). -/
def pyEncode (s : String) : List UInt8 := s.toUTF8.data.toList

/-- Python `urllib.parse.quote_plus(s)`: encode the UTF-8 bytes of `s`. -/
def quote_plus (s : String) : String :=
  String.join ((pyEncode s).map quotePlusByte)

/-- Python `urllib.parse.urlencode` over an association list, preserving
insertion order (Python dicts preserve it), quoting keys and values with
`quote_plus`. -/
def urlencode (params : List (String × String)) : String :=
  String.intercalate "&" (params.map fun kv => quote_plus kv.1 ++ "=" ++ quote_plus kv.2)

/-- Base64 alphabet used by `base64.b64encode`. -/
def b64Chars : List Char :=
  "ABCDEFGHIJKLMNOPQRSTUVWXYZabcdefghijklmnopqrstuvwxyz0123456789+/".toList

/-- Index into the base64 alphabet. -/
def b64Char (n : Nat) : Char := b64Chars.getD n 'A'

/-- Python `base64.b64encode` on a byte list, with `=` padding. -/
def b64encode : List UInt8 → String
  | [] => ""
  | [a] =>
      String.mk [b64Char (a.toNat / 4), b64Char (a.toNat % 4 * 16)] ++ "=="
  | [a, b] =>
      String.mk [b64Char (a.toNat / 4),
                 b64Char (a.toNat % 4 * 16 + b.toNat / 16),
                 b64Char (b.toNat % 16 * 4)] ++ "="
  | a :: b :: c :: rest =>
      String.mk [b64Char (a.toNat / 4),
                 b64Char (a.toNat % 4 * 16 + b.toNat / 16),
                 b64Char (b.toNat % 16 * 4 + c.toNat / 64),
                 b64Char (c.toNat % 64)] ++ b64encode rest

/-- Python `str.strip()` restricted to ASCII whitespace. -/
def pyStrip (s : String) : String := s.trim

/-- Whether `needle` occurs as a contiguous run inside `hay` (character
lists). -/
def subList (needle : List Char) : List Char → Bool
  | [] => needle.isEmpty
  | c :: rest => needle.isPrefixOf (c :: rest) || subList needle rest

/-- Decidable "needle occurs as a contiguous substring of hay". -/
def containsSubstr (hay needle : String) : Bool :=
  subList needle.toList hay.toList

/-- Propositional substring containment, convenient when the haystack is
symbolic: `hay = p ++ needle ++ s` for some `p`, `s`. -/
def ContainsSubstr (hay needle : String) : Prop :=
  ∃ p s, hay = p ++ needle ++ s

/-! ## models.py -/

/-- Model of `models.Product` (pydantic, with defaults).  `price` is a JSON
number or null; numbers are modelled as `Rat`. -/
structure Product where
  product_id : String
  name : String
  description : String := ""
  brand : String := ""
  size : String := ""
  price : Option Rat := none
  in_stock : Bool := true
deriving Repr, DecidableEq

/-- Model of `models.TokenResponse` (pydantic, with defaults). -/
structure TokenResponse where
  access_token : String
  refresh_token : String := ""
  token_type : String := "Bearer"
  expires_in : Int := 1800
deriving Repr, DecidableEq

/-- The JSON object of a token-endpoint response body, with every field
optional (absent = `none`).  `TokenResponse.model_validate` consumes
this. -/
structure TokenJson where
  access_token : Option String := none
  refresh_token : Option String := none
  token_type : Option String := none
  expires_in : Option Int := none
deriving Repr, DecidableEq

/-- Pydantic `TokenResponse.model_validate`: `access_token` is required
(a missing field raises `ValidationError`); the other fields take the
declared defaults when absent. -/
def TokenResponse.model_validate (j : TokenJson) : Except String TokenResponse :=
  match j.access_token with
  | none => .error "ValidationError: access_token is required"
  | some a =>
      .ok { access_token := a
            refresh_token := j.refresh_token.getD ""
            token_type := j.token_type.getD "Bearer"
            expires_in := j.expires_in.getD 1800 }

/-! ## HTTP abstraction -/

/-- An HTTP response as the token-exchange code observes it:
`status` is `response.status_code`, `text` is `response.text`, and
`json` is the parse of `text` as a token object (`response.json()`),
carried alongside the raw body so both views are available. -/
structure HttpResponse where
  status : Nat
  text : String
  json : TokenJson
deriving Repr

/-- An outgoing token-endpoint request: optional `Authorization` header
value and the ordered form body. -/
structure TokenRequest where
  authorization : Option String
  form : List (String × String)
deriving Repr, DecidableEq

/-! ## auth.py -/

def KROGER_AUTH_URL : String := "https://api.kroger.com/v1/connect/oauth2/authorize"

def KROGER_TOKEN_URL : String := "https://api.kroger.com/v1/connect/oauth2/token"

def DEFAULT_REDIRECT_URI : String := "http://localhost:8888/callback"

/-- Default `scope` argument of `build_authorization_url`. -/
def DEFAULT_KROGER_SCOPE : String := "product.compact cart.basic:write"

/-- The failure a grant operation can surface: the `AuthError` the code
raises on a non-200 status, or a pydantic validation error propagating
from `model_validate` on a 200 body. -/
inductive AuthFailure where
  | authError (msg : String)
  | validationError (msg : String)
deriving Repr, DecidableEq

/-- Embedding of `auth.build_authorization_url`: URL-encode the consent parameters in
source order. -/
def build_authorization_url (client_id redirect_uri scope : String) : String :=
  KROGER_AUTH_URL ++ "?" ++ urlencode
    [("scope", scope),
     ("response_type", "code"),
     ("client_id", client_id),
     ("redirect_uri", redirect_uri)]

/-- The Basic credential `auth.py` computes: the base64 encoding of
the UTF-8 bytes of client id, a colon, and client secret. -/
def basicCredentials (client_id client_secret : String) : String :=
  b64encode (pyEncode (client_id ++ ":" ++ client_secret))

/-- The request `get_client_token` posts to the token endpoint. -/
def get_client_token_request (client_id client_secret : String) : TokenRequest :=
  { authorization := some ("Basic " ++ basicCredentials client_id client_secret)
    form := [("grant_type", "client_credentials"), ("scope", "product.compact")] }

/-- Embedding of `auth.get_client_token`, given the endpoint's response. -/
def get_client_token (_client_id _client_secret : String)
    (response : HttpResponse) : Except AuthFailure TokenResponse :=
  if response.status ≠ 200 then
    .error (.authError
      ("Failed to get client token: " ++ toString response.status ++ " " ++ response.text))
  else
    (TokenResponse.model_validate response.json).mapError .validationError

/-- The request `exchange_auth_code` posts to the token endpoint. -/
def exchange_auth_code_request (client_id client_secret auth_code redirect_uri : String) :
    TokenRequest :=
  { authorization := some ("Basic " ++ basicCredentials client_id client_secret)
    form := [("grant_type", "authorization_code"),
             ("code", auth_code),
             ("redirect_uri", redirect_uri)] }

/-- Embedding of `auth.exchange_auth_code`, given the endpoint's response.  Note: the
source performs no local validation of `auth_code`; the request is
dispatched and the response consumed regardless of `auth_code`'s
value. -/
def exchange_auth_code (_client_id _client_secret _auth_code _redirect_uri : String)
    (response : HttpResponse) : Except AuthFailure TokenResponse :=
  if response.status ≠ 200 then
    .error (.authError
      ("Failed to exchange auth code: " ++ toString response.status ++ " " ++ response.text))
  else
    (TokenResponse.model_validate response.json).mapError .validationError

/-- The request `refresh_access_token` posts to the token endpoint. -/
def refresh_access_token_request (client_id client_secret refresh_token : String) :
    TokenRequest :=
  { authorization := some ("Basic " ++ basicCredentials client_id client_secret)
    form := [("grant_type", "refresh_token"), ("refresh_token", refresh_token)] }

/-- Embedding of `auth.refresh_access_token`, given the endpoint's response.  As with
`exchange_auth_code`, no local validation of `refresh_token` occurs. -/
def refresh_access_token (_client_id _client_secret _refresh_token : String)
    (response : HttpResponse) : Except AuthFailure TokenResponse :=
  if response.status ≠ 200 then
    .error (.authError
      ("Failed to refresh token: " ++ toString response.status ++ " " ++ response.text))
  else
    (TokenResponse.model_validate response.json).mapError .validationError

/-! ## cli.py — local callback listener and OAuth orchestration

The listener's handler (`do_GET`) is pure state transformation once the
inbound request path is given; the orchestrator's I/O (printing, the
browser, the blocking wait) is abstracted into explicit inputs (the bind
outcome, the capture state observed after the wait returns, the manual
input) and an explicit event trace as output. -/

/-- Numeric value of an ASCII hex digit, as `urllib.parse.unquote`
accepts (both cases). -/
def hexVal (c : Char) : Option Nat :=
  if '0' ≤ c ∧ c ≤ '9' then some (c.toNat - 48)
  else if 'A' ≤ c ∧ c ≤ 'F' then some (c.toNat - 55)
  else if 'a' ≤ c ∧ c ≤ 'f' then some (c.toNat - 87)
  else none

/-- Python `urllib.parse.unquote_plus` on the ASCII fragment: `+` becomes a
space, a valid `%XY` escape becomes the byte's character, an invalid
escape is left as-is. -/
def unquotePlusChars : List Char → List Char
  | [] => []
  | '+' :: rest => ' ' :: unquotePlusChars rest
  | '%' :: a :: b :: rest =>
      match hexVal a, hexVal b with
      | some ha, some hb => Char.ofNat (16 * ha + hb) :: unquotePlusChars rest
      | _, _ => '%' :: unquotePlusChars (a :: b :: rest)
  | c :: rest => c :: unquotePlusChars rest

/-- Python `urllib.parse.unquote_plus` on a string. -/
def unquote_plus (s : String) : String := String.mk (unquotePlusChars s.toList)

/-- Python `str.split(sep)` for a one-character separator, on character lists
(structural, so concrete instances reduce in the kernel). -/
def splitOnChar (c : Char) : List Char → List (List Char)
  | [] => [[]]
  | x :: rest =>
      let r := splitOnChar c rest
      if x = c then [] :: r
      else
        match r with
        | [] => [[x]]
        | h :: t => (x :: h) :: t

/-- Split a character list at the first occurrence of `c`, or `none` if
`c` does not occur. -/
def splitAtFirst (c : Char) : List Char → Option (List Char × List Char)
  | [] => none
  | x :: rest =>
      if x = c then some ([], rest)
      else (splitAtFirst c rest).map fun p => (x :: p.1, p.2)

/-- Python `urllib.parse.parse_qsl(query)` with the default
`keep_blank_values=False`: split on `&`, drop empty chunks, drop chunks
with no `=` and chunks whose raw value is empty, unquote names and
values. -/
def parse_qsl (query : String) : List (String × String) :=
  (splitOnChar '&' query.toList).filterMap fun nv =>
    if nv.isEmpty then none
    else
      match splitAtFirst '=' nv with
      | none => none
      | some (n, v) =>
          if v.isEmpty then none
          else some (unquote_plus (String.mk n), unquote_plus (String.mk v))

/-- Evaluation of the idiom `parse_qs(query).get(key, [None])[0]`: the first value parsed for
`key`, if any. -/
def getFirstParam (pairs : List (String × String)) (key : String) : Option String :=
  ((pairs.filter fun p => p.1 = key).head?).map fun p => p.2

/-- Python `urllib.parse.urlparse` restricted to what the handler reads: the
fragment (after `#`) is dropped, the query is what follows the first
`?`, the path is what precedes it.  (The `;`-parameter splitting of
`urlparse` is not modelled; no input of interest contains `;`.) -/
def urlparsePathQuery (requestPath : String) : String × String :=
  let noFrag :=
    match splitAtFirst '#' requestPath.toList with
    | some p => p.1
    | none => requestPath.toList
  match splitAtFirst '?' noFrag with
  | some p => (String.mk p.1, String.mk p.2)
  | none => (String.mk noFrag, "")

/-- The class-level capture state shared between a callback handler and
the waiting orchestrator: `auth_code` plus the `threading.Event`. -/
structure CallbackState where
  auth_code : Option String := none
  eventSet : Bool := false
deriving Repr, DecidableEq

/-- What the handler sends back to the browser. -/
structure HandlerResponse where
  status : Nat
  contentTypeHtml : Bool
  body : String
deriving Repr, DecidableEq

/-- The HTML page `_CallbackHandler` writes on success. -/
def KROGER_SUCCESS_HTML : String :=
  "<h1>Authorization successful!</h1><p>You can close this window.</p>"

/-- The HTML page `_GoogleCallbackHandler` writes on success. -/
def GOOGLE_SUCCESS_HTML : String :=
  "<h1>Google authorization successful!</h1><p>You can close this window.</p>"

/-- Embedding of `do_GET` of both callback handlers (they differ only in the success
page, passed as `successHtml`): parse the request path; on
`/callback` with a truthy `code` query parameter, store the code,
respond 200 with the HTML page and set the event; otherwise respond 400
leaving the state untouched. -/
def handler_do_GET (successHtml : String) (st : CallbackState) (requestPath : String) :
    CallbackState × HandlerResponse :=
  let pq := urlparsePathQuery requestPath
  if pq.1 = "/callback" then
    match getFirstParam (parse_qsl pq.2) "code" with
    | some code =>
        if code ≠ "" then
          ({ auth_code := some code, eventSet := true },
           { status := 200, contentTypeHtml := true, body := successHtml })
        else (st, { status := 400, contentTypeHtml := false, body := "" })
    | none => (st, { status := 400, contentTypeHtml := false, body := "" })
  else (st, { status := 400, contentTypeHtml := false, body := "" })

/-- Embedding of `_CallbackHandler.do_GET` (retailer listener, port 8888). -/
def callbackHandler_do_GET (st : CallbackState) (requestPath : String) :
    CallbackState × HandlerResponse :=
  handler_do_GET KROGER_SUCCESS_HTML st requestPath

/-- Embedding of `_GoogleCallbackHandler.do_GET` (task-list listener, port 8889). -/
def googleCallbackHandler_do_GET (st : CallbackState) (requestPath : String) :
    CallbackState × HandlerResponse :=
  handler_do_GET GOOGLE_SUCCESS_HTML st requestPath

/-- Outcome of `HTTPServer(("localhost", port), handler)`: either the
bind succeeded or it raised `OSError`. -/
inductive BindResult where
  | bound
  | osError
deriving Repr, DecidableEq

/-- Embedding of `_start_callback_server` and `_start_google_callback_server`: return
the server when the bind succeeds, `None` when `OSError` is caught.  The
server object itself is abstracted to `Unit`. -/
def start_callback_server (bind : BindResult) : Option Unit :=
  match bind with
  | .bound => some ()
  | .osError => none

/-- Observable steps of `_run_oauth_flow` / `_run_google_oauth_flow`, in
execution order. -/
inductive FlowEvent where
  | startedListener
  | openedBrowser (url : String)
  | waited (timeoutSeconds : Nat)
  | shutdownServer
  | manualCodeEntry
  | fatalExit
  | exchangedCode (code : String)
deriving Repr, DecidableEq

/-- Embedding of `cli._run_oauth_flow` as an event trace.  Inputs: the bind outcome,
the capture state observed when `event.wait(timeout=300)` returns
(either because the handler set the event or because the timeout
elapsed), and the string the user would type on the manual path.  The
trace records listener start, browser opening, the wait with its
timeout, the `server.shutdown()` call, manual entry, the fatal exit on a
missing code, and the code exchange. -/
def run_oauth_flow (client_id : String) (bind : BindResult)
    (stateAfterWait : CallbackState) (manualInput : String) : List FlowEvent :=
  let auth_url := build_authorization_url client_id DEFAULT_REDIRECT_URI DEFAULT_KROGER_SCOPE
  match start_callback_server bind with
  | some _ =>
      [FlowEvent.startedListener, FlowEvent.openedBrowser auth_url,
       FlowEvent.waited 300, FlowEvent.shutdownServer] ++
      (match stateAfterWait.auth_code with
       | none => [FlowEvent.fatalExit]
       | some c => if c = "" then [FlowEvent.fatalExit] else [FlowEvent.exchangedCode c])
  | none =>
      let code := pyStrip manualInput
      FlowEvent.manualCodeEntry ::
        (if code = "" then [FlowEvent.fatalExit] else [FlowEvent.exchangedCode code])

/-- Modelled from the claim's wording (for comparison with the source's
behaviour, not taken from the source): "the query string carries a
`code` parameter" — some `&`-separated chunk of the query is `code` or
starts with `code=`. -/
def queryCarriesCodeParam (query : String) : Bool :=
  (splitOnChar '&' query.toList).any fun nv =>
    nv == "code".toList || "code=".toList.isPrefixOf nv

/-! ## google_tasks.py — multi-item completion -/

/-- Response of one `PATCH .../tasks/{task_id}` call. -/
structure TaskResponse where
  status : Nat
  text : String
deriving Repr, DecidableEq

/-- The `GoogleTasksError` message `complete_tasks` raises for a failed
item. -/
def completeTaskErrMsg (task_id : String) (status : Nat) (body : String) : String :=
  "Failed to complete task " ++ task_id ++ ": " ++ toString status ++ " " ++ body

/-- Embedding of `google_tasks.complete_tasks`, with the network abstracted as
`env : task id → response`.  Returns the ids whose PATCH returned 200
before any abort (the tasks actually completed, in order) and the
`GoogleTasksError` message when a non-200 response aborted the loop. -/
def complete_tasks (env : String → TaskResponse) :
    List String → List String × Option String
  | [] => ([], none)
  | t :: ts =>
      let r := env t
      if r.status = 200 then
        let rec_result := complete_tasks env ts
        (t :: rec_result.1, rec_result.2)
      else ([], some (completeTaskErrMsg t r.status r.text))

/-! ## products.py — product parsing -/

/-- The `inventory` sub-object of a product item. -/
structure InventoryJson where
  stockLevel : Option String := none
deriving Repr, DecidableEq

/-- The `price` sub-object of a product item. -/
structure PriceJson where
  regular : Option Rat := none
deriving Repr, DecidableEq

/-- One entry of a product's `items` array. -/
structure ItemEntryJson where
  size : Option String := none
  price : Option PriceJson := none
  inventory : Option InventoryJson := none
deriving Repr, DecidableEq

/-- A raw product object from the search response's `data` array; every
field the parser reads, each optional (absent = `none`). -/
structure ProductJson where
  productId : Option String := none
  description : Option String := none
  brand : Option String := none
  items : Option (List ItemEntryJson) := none
deriving Repr, DecidableEq

/-- The empty-object placeholder the source supplies as the default
for a missing items array. -/
def emptyItemEntry : ItemEntryJson := {}

/-- Embedding of `products._parse_product`.  Returns `none` for the one input class
where the Python raises (`items` present but an empty list, so `[0]`
raises `IndexError`); otherwise the `Product` built field by field with
the source's defaults. -/
def parse_product (item : ProductJson) : Option Product :=
  let itemsList := item.items.getD [emptyItemEntry]
  match itemsList.head? with
  | none => none
  | some first_item =>
      let price_data := first_item.price.getD {}
      let stock_level := (first_item.inventory.getD {}).stockLevel.getD ""
      some { product_id := item.productId.getD ""
             name := item.description.getD ""
             description := item.description.getD ""
             brand := item.brand.getD ""
             size := first_item.size.getD ""
             price := price_data.regular
             in_stock := stock_level != "TEMPORARILY_OUT_OF_STOCK" }

/-- A product-search response as `search_products` observes it: status,
raw body, and the parsed `data` array of a 200 body. -/
structure ProductsResponse where
  status : Nat
  text : String
  data : List ProductJson
deriving Repr

/-- Embedding of `products.search_products`, given the endpoint's response.  On a
non-200 status it raises `ProductSearchError` (the `.error` case); on
200 it maps `_parse_product` over `data` (`none` inside `.ok` models the
`IndexError` escaping the list comprehension). -/
def search_products (resp : ProductsResponse) : Except String (Option (List Product)) :=
  if resp.status ≠ 200 then
    .error ("Product search failed: " ++ toString resp.status ++ " " ++ resp.text)
  else
    .ok (resp.data.mapM parse_product)

/-! ## Shared helper lemmas -/

/-- The middle part of a three-way concatenation is a substring. -/
theorem containsSubstr_mid (a b c : String) : ContainsSubstr (a ++ b ++ c) b :=
  ⟨a, c, rfl⟩

/-- A suffix is a substring. -/
theorem containsSubstr_right (a b : String) : ContainsSubstr (a ++ b) b :=
  ⟨a, "", by rw [String.append_assoc, String.append_empty]⟩

/-- Lemma: `model_validate` on a body with an `access_token` succeeds and fills
absent fields with the declared defaults. -/
theorem model_validate_ok (j : TokenJson) (a : String) (ha : j.access_token = some a) :
    TokenResponse.model_validate j =
      .ok { access_token := a
            refresh_token := j.refresh_token.getD ""
            token_type := j.token_type.getD "Bearer"
            expires_in := j.expires_in.getD 1800 } := by
  simp [TokenResponse.model_validate, ha]

/-! ## Claims -/

/-- C1: for every token-endpoint response with status 200 whose JSON
body contains an `access_token`, each of the three grant operations
returns the same `TokenResponse`, whose `access_token` is the
response's, and whose fields absent from the JSON take the defaults:
`refresh_token = ""`, `token_type = "Bearer"`, `expires_in = 1800`. -/
theorem C1_grant_success_parses_tokenset
    (cid csec code ruri rt a : String) (resp : HttpResponse)
    (hst : resp.status = 200) (ha : resp.json.access_token = some a) :
    ∃ tk : TokenResponse,
      get_client_token cid csec resp = .ok tk ∧
      exchange_auth_code cid csec code ruri resp = .ok tk ∧
      refresh_access_token cid csec rt resp = .ok tk ∧
      tk.access_token = a ∧
      (resp.json.refresh_token = none → tk.refresh_token = "") ∧
      (resp.json.token_type = none → tk.token_type = "Bearer") ∧
      (resp.json.expires_in = none → tk.expires_in = 1800) := by
  refine ⟨{ access_token := a
            refresh_token := resp.json.refresh_token.getD ""
            token_type := resp.json.token_type.getD "Bearer"
            expires_in := resp.json.expires_in.getD 1800 }, ?_, ?_, ?_, rfl, ?_, ?_, ?_⟩
  · simp [get_client_token, hst, model_validate_ok resp.json a ha, Except.mapError]
  · simp [exchange_auth_code, hst, model_validate_ok resp.json a ha, Except.mapError]
  · simp [refresh_access_token, hst, model_validate_ok resp.json a ha, Except.mapError]
  · intro h; simp [h]
  · intro h; simp [h]
  · intro h; simp [h]

/-- Witness for C1 at a concrete 200 response whose body has only an
`access_token`. -/
theorem C1_witness :
    ∃ tk : TokenResponse,
      get_client_token "id" "sec"
        { status := 200, text := "rawbody", json := { access_token := some "tok" } } = .ok tk ∧
      exchange_auth_code "id" "sec" "c" "u"
        { status := 200, text := "rawbody", json := { access_token := some "tok" } } = .ok tk ∧
      refresh_access_token "id" "sec" "r"
        { status := 200, text := "rawbody", json := { access_token := some "tok" } } = .ok tk ∧
      tk.access_token = "tok" ∧
      (({ access_token := some "tok" } : TokenJson).refresh_token = none → tk.refresh_token = "") ∧
      (({ access_token := some "tok" } : TokenJson).token_type = none → tk.token_type = "Bearer") ∧
      (({ access_token := some "tok" } : TokenJson).expires_in = none → tk.expires_in = 1800) :=
  C1_grant_success_parses_tokenset "id" "sec" "c" "u" "r" "tok"
    { status := 200, text := "rawbody", json := { access_token := some "tok" } } rfl rfl

/-- C2: for every token-endpoint response with status ≠ 200, each of
the three grant operations fails with `AuthError` whose message
contains the numeric status and the raw body, and no `TokenResponse` is
produced. -/
theorem C2_non200_fails_with_autherror
    (cid csec code ruri rt : String) (resp : HttpResponse) (hst : resp.status ≠ 200) :
    ∃ m1 m2 m3 : String,
      get_client_token cid csec resp = .error (.authError m1) ∧
      exchange_auth_code cid csec code ruri resp = .error (.authError m2) ∧
      refresh_access_token cid csec rt resp = .error (.authError m3) ∧
      ContainsSubstr m1 (toString resp.status) ∧ ContainsSubstr m1 resp.text ∧
      ContainsSubstr m2 (toString resp.status) ∧ ContainsSubstr m2 resp.text ∧
      ContainsSubstr m3 (toString resp.status) ∧ ContainsSubstr m3 resp.text := by
  refine ⟨"Failed to get client token: " ++ toString resp.status ++ " " ++ resp.text,
          "Failed to exchange auth code: " ++ toString resp.status ++ " " ++ resp.text,
          "Failed to refresh token: " ++ toString resp.status ++ " " ++ resp.text,
          ?_, ?_, ?_, ?_, ?_, ?_, ?_, ?_, ?_⟩
  · simp [get_client_token, hst]
  · simp [exchange_auth_code, hst]
  · simp [refresh_access_token, hst]
  · exact ⟨"Failed to get client token: ", " " ++ resp.text, String.append_assoc _ _ _⟩
  · exact containsSubstr_right _ _
  · exact ⟨"Failed to exchange auth code: ", " " ++ resp.text, String.append_assoc _ _ _⟩
  · exact containsSubstr_right _ _
  · exact ⟨"Failed to refresh token: ", " " ++ resp.text, String.append_assoc _ _ _⟩
  · exact containsSubstr_right _ _

/-- Witness for C2 at a concrete 401 response. -/
theorem C2_witness :
    ∃ m1 m2 m3 : String,
      get_client_token "id" "sec"
        { status := 401, text := "denied", json := {} } = .error (.authError m1) ∧
      exchange_auth_code "id" "sec" "c" "u"
        { status := 401, text := "denied", json := {} } = .error (.authError m2) ∧
      refresh_access_token "id" "sec" "r"
        { status := 401, text := "denied", json := {} } = .error (.authError m3) ∧
      ContainsSubstr m1 (toString (401 : Nat)) ∧ ContainsSubstr m1 "denied" ∧
      ContainsSubstr m2 (toString (401 : Nat)) ∧ ContainsSubstr m2 "denied" ∧
      ContainsSubstr m3 (toString (401 : Nat)) ∧ ContainsSubstr m3 "denied" :=
  C2_non200_fails_with_autherror "id" "sec" "c" "u" "r"
    { status := 401, text := "denied", json := {} } (by decide)

/-- C3 counterexample: the request `GET /callback?code=` carries a
`code` parameter (with an empty value), yet both listeners respond 400,
leave the captured code unset and do not set the completion signal —
`parse_qs` drops blank-valued parameters, so the claim's 200 branch does
not fire. -/
theorem C3_counterexample :
    queryCarriesCodeParam "code=" = true ∧
    urlparsePathQuery "/callback?code=" = ("/callback", "code=") ∧
    callbackHandler_do_GET {} "/callback?code=" =
      ({}, { status := 400, contentTypeHtml := false, body := "" }) ∧
    googleCallbackHandler_do_GET {} "/callback?code=" =
      ({}, { status := 400, contentTypeHtml := false, body := "" }) := by
  refine ⟨rfl, ?_, ?_, ?_⟩ <;> decide

/-- C3 (amended): for every inbound GET, if the path is `/callback` and
the query parses (per `parse_qs`, which drops parameters with empty
values) to a non-empty first `code` value `c`, the handler stores `c`,
responds 200 with the HTML success page and sets the completion signal;
for any other request — wrong path, no `code` parameter, or only an
empty `code` value — it responds 400, leaves the state unchanged and
does not set the signal.  Covers both handlers via `successHtml`. -/
theorem C3_handler_dispatch (successHtml : String) (st : CallbackState) (rp : String) :
    (∀ c, (urlparsePathQuery rp).1 = "/callback" →
       getFirstParam (parse_qsl (urlparsePathQuery rp).2) "code" = some c → c ≠ "" →
       handler_do_GET successHtml st rp =
         ({ auth_code := some c, eventSet := true },
          { status := 200, contentTypeHtml := true, body := successHtml })) ∧
    (((urlparsePathQuery rp).1 ≠ "/callback" ∨
      (∀ c, getFirstParam (parse_qsl (urlparsePathQuery rp).2) "code" = some c → c = "")) →
       handler_do_GET successHtml st rp =
         (st, { status := 400, contentTypeHtml := false, body := "" })) := by
  constructor
  · intro c hp hc hne
    simp [handler_do_GET, hp, hc, hne]
  · intro h
    rcases h with hp | hall
    · simp [handler_do_GET, hp]
    · by_cases hp2 : (urlparsePathQuery rp).1 = "/callback"
      · cases hcode : getFirstParam (parse_qsl (urlparsePathQuery rp).2) "code" with
        | none => simp [handler_do_GET, hp2, hcode]
        | some c =>
            have hc : c = "" := hall c hcode
            subst hc
            simp [handler_do_GET, hp2, hcode]
      · simp [handler_do_GET, hp2]

/-- Witness for C3 (amended): a captured code on `/callback?code=XYZ`
and a 400 with untouched state on `/other`. -/
theorem C3_handler_dispatch_witness :
    handler_do_GET KROGER_SUCCESS_HTML {} "/callback?code=XYZ" =
      ({ auth_code := some "XYZ", eventSet := true },
       { status := 200, contentTypeHtml := true, body := KROGER_SUCCESS_HTML }) ∧
    handler_do_GET GOOGLE_SUCCESS_HTML {} "/other" =
      ({}, { status := 400, contentTypeHtml := false, body := "" }) :=
  ⟨(C3_handler_dispatch KROGER_SUCCESS_HTML {} "/callback?code=XYZ").1 "XYZ"
     (by decide) (by decide) (by decide),
   (C3_handler_dispatch GOOGLE_SUCCESS_HTML {} "/other").2 (Or.inl (by decide))⟩

/-- C4: when the listener started, the orchestrator waits on the
completion signal with timeout exactly 300 seconds and the server is
shut down immediately after the wait returns, for every capture state
the wait could have observed (signal set or timeout with the code still
unset); no further wait or shutdown occurs. -/
theorem C4_wait_300_then_shutdown (cid : String) (stateAfterWait : CallbackState)
    (manualInput : String) :
    ∃ rest,
      run_oauth_flow cid .bound stateAfterWait manualInput =
        [FlowEvent.startedListener,
         FlowEvent.openedBrowser (build_authorization_url cid DEFAULT_REDIRECT_URI
           DEFAULT_KROGER_SCOPE),
         FlowEvent.waited 300, FlowEvent.shutdownServer] ++ rest ∧
      (∀ t, FlowEvent.waited t ∉ rest) ∧
      FlowEvent.shutdownServer ∉ rest := by
  refine ⟨(match stateAfterWait.auth_code with
           | none => [FlowEvent.fatalExit]
           | some c => if c = "" then [FlowEvent.fatalExit]
                       else [FlowEvent.exchangedCode c]), rfl, ?_, ?_⟩
  · intro t
    cases h : stateAfterWait.auth_code with
    | none => simp
    | some c => by_cases hc : c = "" <;> simp [hc]
  · cases h : stateAfterWait.auth_code with
    | none => simp
    | some c => by_cases hc : c = "" <;> simp [hc]

/-- C5: when the bind fails, `_start_callback_server` returns no server
rather than raising, and the orchestrator never waits on a completion
signal: it prompts for manual entry and, when the stripped input is
non-empty, exchanges exactly that code (exiting instead when it is
empty). -/
theorem C5_port_unavailable_manual_fallback (cid : String) (st : CallbackState)
    (manualInput : String) :
    start_callback_server .osError = none ∧
    (∀ t, FlowEvent.waited t ∉ run_oauth_flow cid .osError st manualInput) ∧
    (run_oauth_flow cid .osError st manualInput).head? = some FlowEvent.manualCodeEntry ∧
    (pyStrip manualInput ≠ "" →
      run_oauth_flow cid .osError st manualInput =
        [FlowEvent.manualCodeEntry, FlowEvent.exchangedCode (pyStrip manualInput)]) ∧
    (pyStrip manualInput = "" →
      run_oauth_flow cid .osError st manualInput =
        [FlowEvent.manualCodeEntry, FlowEvent.fatalExit]) := by
  refine ⟨rfl, ?_, ?_, ?_, ?_⟩
  · intro t
    by_cases h : pyStrip manualInput = "" <;>
      simp [run_oauth_flow, start_callback_server, h]
  · by_cases h : pyStrip manualInput = "" <;>
      simp [run_oauth_flow, start_callback_server, h]
  · intro h
    simp [run_oauth_flow, start_callback_server, h]
  · intro h
    simp [run_oauth_flow, start_callback_server, h]

/-- Witness for C5 at concrete inputs: manual entry of `" thecode "`
strips to `"thecode"` and is exchanged; no wait event occurs. -/
theorem C5_witness :
    start_callback_server .osError = none ∧
    (∀ t, FlowEvent.waited t ∉ run_oauth_flow "abc" .osError {} " thecode ") ∧
    (run_oauth_flow "abc" .osError {} " thecode ").head? = some FlowEvent.manualCodeEntry ∧
    (pyStrip " thecode " ≠ "" →
      run_oauth_flow "abc" .osError {} " thecode " =
        [FlowEvent.manualCodeEntry, FlowEvent.exchangedCode (pyStrip " thecode ")]) ∧
    (pyStrip " thecode " = "" →
      run_oauth_flow "abc" .osError {} " thecode " =
        [FlowEvent.manualCodeEntry, FlowEvent.fatalExit]) :=
  C5_port_unavailable_manual_fallback "abc" {} " thecode "

/-- C6 counterexample: with an empty `code` (resp. `refresh_token`)
argument, neither operation rejects locally — the request carrying the
empty value in its form body is dispatched, and a 200 response from the
endpoint is parsed into a token as usual. -/
theorem C6_counterexample :
    (exchange_auth_code_request "id" "sec" "" DEFAULT_REDIRECT_URI).form.lookup "code"
      = some "" ∧
    (refresh_access_token_request "id" "sec" "").form.lookup "refresh_token" = some "" ∧
    exchange_auth_code "id" "sec" "" DEFAULT_REDIRECT_URI
      { status := 200, text := "rawbody", json := { access_token := some "tok" } } =
      .ok { access_token := "tok" } ∧
    refresh_access_token "id" "sec" ""
      { status := 200, text := "rawbody", json := { access_token := some "tok" } } =
      .ok { access_token := "tok" } := by
  refine ⟨?_, ?_, ?_, ?_⟩ <;> rfl

/-- C6 (amended): the authorization-code and refresh-token grant
operations perform no local validation of their `code` /
`refresh_token` argument: the form body always carries the argument
verbatim (empty included), and the operation's outcome is a function of
the endpoint's response alone, identical for an empty and a non-empty
argument. -/
theorem C6_no_local_validation (cid csec ruri code rt : String) (resp : HttpResponse) :
    (exchange_auth_code_request cid csec code ruri).form.lookup "code" = some code ∧
    (refresh_access_token_request cid csec rt).form.lookup "refresh_token" = some rt ∧
    exchange_auth_code cid csec "" ruri resp = exchange_auth_code cid csec code ruri resp ∧
    refresh_access_token cid csec "" resp = refresh_access_token cid csec rt resp := by
  refine ⟨?_, ?_, rfl, rfl⟩
  · simp [exchange_auth_code_request, List.lookup]
  · simp [refresh_access_token_request, List.lookup]

/-- C7 counterexample: the consent URL built for client id `"abc"` with
the default parameters does not contain the default scope string
verbatim — `urlencode` rewrites the space to `+` and the colon to
`%3A`. -/
theorem C7_counterexample :
    DEFAULT_KROGER_SCOPE = "product.compact cart.basic:write" ∧
    containsSubstr
      (build_authorization_url "abc" DEFAULT_REDIRECT_URI DEFAULT_KROGER_SCOPE)
      DEFAULT_KROGER_SCOPE = false := by
  exact ⟨rfl, by rfl⟩

/-- C7 (amended): the consent URL for client id `"abc"` and default
parameters contains `client_id=abc`, `response_type=code`, and the
URL-encoded form of the provider's default scope,
`scope=product.compact+cart.basic%3Awrite` (the `quote_plus` encoding
of the default scope), rather than the scope's raw characters. -/
theorem C7_url_contains_encoded_scope :
    containsSubstr
      (build_authorization_url "abc" DEFAULT_REDIRECT_URI DEFAULT_KROGER_SCOPE)
      "client_id=abc" = true ∧
    containsSubstr
      (build_authorization_url "abc" DEFAULT_REDIRECT_URI DEFAULT_KROGER_SCOPE)
      "response_type=code" = true ∧
    quote_plus DEFAULT_KROGER_SCOPE = "product.compact+cart.basic%3Awrite" ∧
    containsSubstr
      (build_authorization_url "abc" DEFAULT_REDIRECT_URI DEFAULT_KROGER_SCOPE)
      ("scope=" ++ quote_plus DEFAULT_KROGER_SCOPE) = true := by
  refine ⟨?_, ?_, ?_, ?_⟩ <;> rfl

/-- C8 counterexample: `get_client_token` accepts no scope from its
caller — the form body's `scope` field is the constant
`"product.compact"`, so it differs from a caller-chosen scope such as
`"cart.basic:write"`. -/
theorem C8_counterexample :
    (get_client_token_request "abc" "secret").form.lookup "scope" = some "product.compact" ∧
    (get_client_token_request "abc" "secret").form.lookup "scope" ≠ some "cart.basic:write" := by
  exact ⟨rfl, by decide⟩

/-- C8 (amended): the client-credentials grant operation takes only
`client_id` and `client_secret`; it sends HTTP Basic auth whose
credential is the base64 encoding of `"clientId:clientSecret"` and the
form body `{grant_type: client_credentials, scope: "product.compact"}`
with the scope fixed by the implementation, not supplied by the
caller. -/
theorem C8_client_credentials_request (cid csec : String) :
    get_client_token_request cid csec =
      { authorization := some ("Basic " ++ b64encode (pyEncode (cid ++ ":" ++ csec)))
        form := [("grant_type", "client_credentials"), ("scope", "product.compact")] } ∧
    (get_client_token_request "abc" "secret").authorization =
      some "Basic YWJjOnNlY3JldA==" := by
  exact ⟨rfl, by rfl⟩

/-- The head of `dropWhile p l`, when it exists, fails `p` — i.e. the
first item at which the loop stops is a genuinely failing one. -/
theorem head_dropWhile_false {α : Type} (p : α → Bool) :
    ∀ (l : List α) (a : α), (l.dropWhile p).head? = some a → p a = false := by
  intro l
  induction l with
  | nil => intro a h; simp [List.dropWhile] at h
  | cons x xs ih =>
      intro a h
      by_cases hp : p x
      · rw [List.dropWhile_cons_of_pos hp] at h
        exact ih a h
      · rw [List.dropWhile_cons_of_neg hp] at h
        simp only [List.head?_cons, Option.some.injEq] at h
        subst h
        exact Bool.eq_false_iff.mpr hp

/-- Closed form of `complete_tasks`: the completed ids are the longest
200-prefix, and the error (if any) names the first failing id. -/
theorem complete_tasks_closed_form (env : String → TaskResponse) (ids : List String) :
    complete_tasks env ids =
      (ids.takeWhile (fun t => decide ((env t).status = 200)),
       (ids.dropWhile (fun t => decide ((env t).status = 200))).head?.map
         (fun t => completeTaskErrMsg t (env t).status (env t).text)) := by
  induction ids with
  | nil => simp [complete_tasks]
  | cons t ts ih =>
      by_cases h : (env t).status = 200
      · simp [complete_tasks, h, List.takeWhile_cons, List.dropWhile_cons, ih]
      · simp [complete_tasks, h, List.takeWhile_cons, List.dropWhile_cons]

/-- C9: the multi-item completion operation processes the ids in list
order: the ids actually completed are exactly the longest prefix of
consecutive 200 responses (never undone or retried — partial completion
stands), there is no error exactly when every id got a 200, and
otherwise the error names the first failing id and carries that
response's status and body. -/
theorem C9_complete_tasks_first_failure (env : String → TaskResponse) (ids : List String) :
    (complete_tasks env ids).1 =
      ids.takeWhile (fun t => decide ((env t).status = 200)) ∧
    ((∀ t ∈ ids, (env t).status = 200) → complete_tasks env ids = (ids, none)) ∧
    (∀ t, (ids.dropWhile (fun t => decide ((env t).status = 200))).head? = some t →
       (env t).status ≠ 200 ∧
       (complete_tasks env ids).2 =
         some (completeTaskErrMsg t (env t).status (env t).text) ∧
       ContainsSubstr (completeTaskErrMsg t (env t).status (env t).text) t ∧
       ContainsSubstr (completeTaskErrMsg t (env t).status (env t).text)
         (toString (env t).status) ∧
       ContainsSubstr (completeTaskErrMsg t (env t).status (env t).text) (env t).text) := by
  refine ⟨?_, ?_, ?_⟩
  · rw [complete_tasks_closed_form]
  · intro hall
    rw [complete_tasks_closed_form]
    have h1 : ids.takeWhile (fun t => decide ((env t).status = 200)) = ids :=
      List.takeWhile_eq_self_iff.mpr (by intro x hx; simpa using hall x hx)
    have h2 : ids.dropWhile (fun t => decide ((env t).status = 200)) = [] :=
      List.dropWhile_eq_nil_iff.mpr (by intro x hx; simpa using hall x hx)
    rw [h1, h2]
    rfl
  · intro t ht
    have hfail := head_dropWhile_false _ ids t ht
    refine ⟨by simpa using hfail, ?_, ?_, ?_, ?_⟩
    · rw [complete_tasks_closed_form]
      simp [ht]
    · exact ⟨"Failed to complete task ",
             ": " ++ toString (env t).status ++ " " ++ (env t).text,
             by simp [completeTaskErrMsg, String.append_assoc]⟩
    · exact ⟨"Failed to complete task " ++ t ++ ": ",
             " " ++ (env t).text,
             by simp [completeTaskErrMsg, String.append_assoc]⟩
    · exact ⟨"Failed to complete task " ++ t ++ ": " ++ toString (env t).status ++ " ",
             "",
             by simp [completeTaskErrMsg, String.append_assoc]⟩

/-- Witness for C9: three tasks where the second fails with 500 —
exactly the first is completed, and the error names the second with its
status and body. -/
theorem C9_witness :
    (complete_tasks
      (fun t => if t = "a" then { status := 200, text := "ok" }
                else { status := 500, text := "boom" }) ["a", "b", "c"]).1 = ["a"] ∧
    (complete_tasks
      (fun t => if t = "a" then { status := 200, text := "ok" }
                else { status := 500, text := "boom" }) ["a", "b", "c"]).2 =
      some (completeTaskErrMsg "b" 500 "boom") ∧
    ContainsSubstr (completeTaskErrMsg "b" 500 "boom") "b" := by
  have h := C9_complete_tasks_first_failure
    (fun t => if t = "a" then { status := 200, text := "ok" }
              else { status := 500, text := "boom" }) ["a", "b", "c"]
  have h3 := h.2.2 "b" (by decide)
  exact ⟨h.1.trans (by decide), h3.2.1.trans (by decide), h3.2.2.1⟩

/-- C10: each parsed `Product` is total over missing JSON fields: with
no `items` array the size is `""` and the price `none` (and the string
fields default to `""` when absent); whenever parsing succeeds,
`in_stock` is `false` exactly when the first item's inventory
`stockLevel` equals `"TEMPORARILY_OUT_OF_STOCK"` (so a missing
inventory yields `in_stock = true`); and a 200 search response maps the
parser over its `data` array. -/
theorem C10_parse_product_total (item : ProductJson) (resp : ProductsResponse) :
    (item.items = none →
      parse_product item = some
        { product_id := item.productId.getD "", name := item.description.getD "",
          description := item.description.getD "", brand := item.brand.getD "",
          size := "", price := none, in_stock := true }) ∧
    (∀ fi p, (item.items.getD [emptyItemEntry]).head? = some fi →
       parse_product item = some p →
       ((p.in_stock = false ↔
           (fi.inventory.getD {}).stockLevel.getD "" = "TEMPORARILY_OUT_OF_STOCK") ∧
        (fi.inventory = none → p.in_stock = true) ∧
        p.product_id = item.productId.getD "" ∧
        p.name = item.description.getD "" ∧
        p.description = item.description.getD "" ∧
        p.brand = item.brand.getD "" ∧
        p.size = fi.size.getD "" ∧
        p.price = (fi.price.getD {}).regular)) ∧
    (resp.status = 200 → search_products resp = .ok (resp.data.mapM parse_product)) := by
  refine ⟨?_, ?_, ?_⟩
  · intro h
    simp [parse_product, h, emptyItemEntry]
  · intro fi p hfi hp
    simp only [parse_product, hfi, Option.some.injEq] at hp
    subst hp
    refine ⟨?_, ?_, rfl, rfl, rfl, rfl, rfl, rfl⟩
    · simp [bne]
    · intro hinv
      simp [hinv, emptyItemEntry]
  · intro h
    simp [search_products, h]

/-- Witness for C10: the empty product object parses to the all-default
`Product`, and a 200 search response parses its single empty item. -/
theorem C10_witness :
    parse_product {} = some
      { product_id := "", name := "", description := "", brand := "",
        size := "", price := none, in_stock := true } ∧
    search_products { status := 200, text := "", data := [{}] } =
      .ok (some [{ product_id := "", name := "", description := "", brand := "",
                   size := "", price := none, in_stock := true }]) := by
  have h := C10_parse_product_total ({} : ProductJson)
    { status := 200, text := "", data := [{}] }
  exact ⟨h.1 rfl, (h.2.2 rfl).trans (by rfl)⟩

end FredMaiyer
